import Mathlib

/-!
Shallow embedding of `src/mod.ts` of the `xerrorhandler` repository.

The source is a single class `ErrorRegistry` holding an array of
`ErrorRegistryEntry` records and an array of observer callbacks, plus a
method decorator `catchError` that wraps a method so that a thrown error
is recorded, observers are notified, and `undefined` is returned.

Modelling decisions:
- A JS `Error` is a pair of `name` and `message` strings.
- Receiver objects (`this` / `context`) are modelled as opaque ids (`Nat`).
- Observer callbacks are modelled as ids (`Nat`) with reference identity
  given by `Nat` equality; an environment `ObsEnv` maps each callback id
  to the list of primitive registry actions the callback performs when
  invoked (it may register or unregister observers, clear the registry,
  or throw).  The empty list models a callback with no effect on the
  registry.
- `notifyObservers` uses a JS `for...of` loop over the live observer
  array.  A `push` (from `registerObserver`) mutates the array being
  iterated, so appended callbacks are visited; `unregisterObserver`
  installs a *new* array produced by `filter`, so the in-progress
  iteration keeps walking the old array.  We model this with an explicit
  iteration array plus an `aliased` flag recording whether the registry
  field still refers to the iterated array.
- Since a callback may re-register itself, notification need not
  terminate; the loop takes explicit fuel and returns `none` on fuel
  exhaustion.
- `Date` timestamps are opaque `Nat` values supplied by the caller.
-/

namespace XErrorHandler

/-- A JavaScript `Error` value: its `name` and `message`. -/
structure JsError where
  name : String
  message : String
deriving DecidableEq

/-- `ErrorRegistryEntry` from `src/mod.ts`: the caught error, the receiver
(`context`), the defining class name, the method name and a timestamp. -/
structure ErrorRegistryEntry where
  error : JsError
  context : Nat
  constructor_name : String
  method_name : String
  timestamp : Nat
deriving DecidableEq

/-- The mutable state of an `ErrorRegistry` instance: the entry array
`errorRegistryEntries` and the observer array `errorRegistryObservers`
(callback ids, in registration order, duplicates allowed). -/
structure RegistryState where
  errorRegistryEntries : List ErrorRegistryEntry
  errorRegistryObservers : List Nat
deriving DecidableEq

/-- `getRegistry`: returns the entry array (no mutation). -/
def getRegistry (s : RegistryState) : List ErrorRegistryEntry :=
  s.errorRegistryEntries

/-- `clearRegistry`: replaces the entry array with a fresh empty one. -/
def clearRegistry (s : RegistryState) : RegistryState :=
  { s with errorRegistryEntries := [] }

/-- `registerObserver`: pushes the callback onto the observer array. -/
def registerObserver (s : RegistryState) (observer : Nat) : RegistryState :=
  { s with errorRegistryObservers := s.errorRegistryObservers ++ [observer] }

/-- `unregisterObserver`: replaces the observer array by a new array
keeping exactly the callbacks that are not reference-equal to the given
one (`filter (o) => o !== observer`). -/
def unregisterObserver (s : RegistryState) (observer : Nat) : RegistryState :=
  { s with errorRegistryObservers :=
      s.errorRegistryObservers.filter (fun o => o ≠ observer) }

/-- One record printed by `logRegistry`: the error reduced to its name and
message, together with the remaining entry fields. -/
structure LogRecord where
  error_name : String
  error_message : String
  context : Nat
  constructor_name : String
  method_name : String
  timestamp : Nat
deriving DecidableEq

/-- `logRegistry`: emits one record per entry, in order, to the error
output sink; it mutates nothing and returns nothing, so we model it as
the list of records it prints. -/
def logRegistry (s : RegistryState) : List LogRecord :=
  s.errorRegistryEntries.map fun en =>
    { error_name := en.error.name
      error_message := en.error.message
      context := en.context
      constructor_name := en.constructor_name
      method_name := en.method_name
      timestamp := en.timestamp }

/-- A primitive registry action an observer callback may perform while it
is being invoked: register a callback, unregister a callback, clear the
entry array, or throw. -/
inductive ObsStep where
  | registerObs (cb : Nat)
  | unregisterObs (cb : Nat)
  | clearReg
  | throwErr (e : JsError)
deriving DecidableEq

/-- Whether an observer action is a throw. -/
def ObsStep.isThrow : ObsStep → Bool
  | .throwErr _ => true
  | _ => false

/-- Whether an observer action clears the registry. -/
def ObsStep.isClear : ObsStep → Bool
  | .clearReg => true
  | _ => false

/-- Observer behaviour environment: the list of registry actions each
callback id performs when invoked. -/
def ObsEnv : Type := Nat → List ObsStep

/-- An environment in which no callback throws. -/
def ThrowFree (env : ObsEnv) : Prop :=
  ∀ cb : Nat, ∀ a ∈ env cb, a.isThrow = false

/-- An environment in which no callback clears the registry. -/
def ClearFree (env : ObsEnv) : Prop :=
  ∀ cb : Nat, ∀ a ∈ env cb, a.isClear = false

/-- An environment in which every callback leaves the registry alone. -/
def Passive (env : ObsEnv) : Prop :=
  ∀ cb : Nat, env cb = []

/-- State during a `notifyObservers` loop: the registry, the array being
iterated by `for...of`, whether `errorRegistryObservers` still refers to
that very array (a `push` then mutates both; `filter` breaks the alias),
and the trace of observer invocations `(callback, entry)` so far. -/
structure NotifyState where
  reg : RegistryState
  iterArr : List Nat
  aliased : Bool
  trace : List (Nat × ErrorRegistryEntry)
deriving DecidableEq

/-- Effect of one observer action on the notification state.  A throw
carries the error out; the other actions mirror the registry methods,
with `registerObs` also growing the iterated array when it is still the
same array object as `errorRegistryObservers`. -/
def runObsStep (s : NotifyState) : ObsStep → Except JsError NotifyState
  | .registerObs cb =>
      .ok { s with reg := registerObserver s.reg cb
                   iterArr := if s.aliased then s.iterArr ++ [cb] else s.iterArr }
  | .unregisterObs cb =>
      .ok { s with reg := unregisterObserver s.reg cb, aliased := false }
  | .clearReg => .ok { s with reg := clearRegistry s.reg }
  | .throwErr e => .error e

/-- Run one observer invocation body: perform its actions in order; a
throw aborts the rest and is reported alongside the state reached. -/
def runObsSteps : NotifyState → List ObsStep → NotifyState × Option JsError
  | s, [] => (s, none)
  | s, a :: rest =>
      match runObsStep s a with
      | .error e => (s, some e)
      | .ok s' => runObsSteps s' rest

/-- Result of a `notifyObservers` run: the registry state afterwards, the
invocation trace, and the error thrown by an observer, if any. -/
structure NotifyResult where
  reg : RegistryState
  trace : List (Nat × ErrorRegistryEntry)
  thrown : Option JsError
deriving DecidableEq

/-- The `for...of` loop of `notifyObservers`, with fuel.  At index `idx`
it checks the live length of the iterated array, invokes the callback
found there with `entry`, and continues; an observer throw stops the
loop and propagates.  `none` means the fuel ran out. -/
def notifyLoop (env : ObsEnv) (entry : ErrorRegistryEntry) :
    Nat → NotifyState → Nat → Option NotifyResult
  | 0, _, _ => none
  | fuel + 1, s, idx =>
      if h : idx < s.iterArr.length then
        let s1 : NotifyState :=
          { s with trace := s.trace ++ [(s.iterArr[idx], entry)] }
        match runObsSteps s1 (env s.iterArr[idx]) with
        | (s2, some e) => some { reg := s2.reg, trace := s2.trace, thrown := some e }
        | (s2, none) => notifyLoop env entry fuel s2 (idx + 1)
      else
        some { reg := s.reg, trace := s.trace, thrown := none }

/-- The entry literal built in `pushErrorToRegistry`. -/
def mkEntry (error : JsError) (context : Nat)
    (constructor_name method_name : String) (timestamp : Nat) :
    ErrorRegistryEntry :=
  { error := error
    context := context
    constructor_name := constructor_name
    method_name := method_name
    timestamp := timestamp }

/-- `pushErrorToRegistry`: builds the entry, pushes it onto the entry
array, then runs `notifyObservers` over the observer array (iterated
live and initially aliased with the registry field). -/
def pushErrorToRegistry (env : ObsEnv) (fuel : Nat) (s : RegistryState)
    (error : JsError) (context : Nat)
    (constructor_name method_name : String) (timestamp : Nat) :
    Option NotifyResult :=
  let entry := mkEntry error context constructor_name method_name timestamp
  let s1 : RegistryState :=
    { s with errorRegistryEntries := s.errorRegistryEntries ++ [entry] }
  notifyLoop env entry fuel
    { reg := s1, iterArr := s1.errorRegistryObservers
      aliased := true, trace := [] } 0

/-- Outcome of one run of an (unwrapped) method body: a normal return or
a thrown error. -/
inductive MethodOutcome (β : Type) where
  | ret (v : β)
  | thrown (e : JsError)
deriving DecidableEq

/-- A method wrapped by the decorator returned from `catchError`:
`targetCtorName` models `target.constructor.name` (the name of the class
whose prototype the decorator was applied to), `methodName` models
`method.name`, and `body` is the original method, taking the receiver
and the argument tuple. -/
structure WrappedMethod (α β : Type) where
  targetCtorName : String
  methodName : String
  body : Nat → α → MethodOutcome β

/-- What a call of the wrapped method does from the caller's viewpoint:
return a value (`none` standing for `undefined`), or throw. -/
inductive CallResult (β : Type) where
  | ret (v : Option β)
  | threw (e : JsError)
deriving DecidableEq

/-- Full outcome of a wrapped call: the caller-visible result, the
registry state afterwards, and the observer invocation trace. -/
structure CallOutput (β : Type) where
  result : CallResult β
  reg : RegistryState
  trace : List (Nat × ErrorRegistryEntry)

/-- Semantics of calling a method wrapped by `catchError` on registry
state `s`, with receiver `recv`, arguments `args` and current time
`now`: on a normal return the value passes through untouched; on a
throw, `pushErrorToRegistry` runs and the call returns `undefined`
unless an observer threw during notification, in which case that throw
propagates to the caller.  `none` means notification ran out of fuel. -/
def wrappedCall (env : ObsEnv) (fuel : Nat) {α β : Type}
    (w : WrappedMethod α β) (s : RegistryState) (recv : Nat) (args : α)
    (now : Nat) : Option (CallOutput β) :=
  match w.body recv args with
  | .ret v => some { result := .ret (some v), reg := s, trace := [] }
  | .thrown e =>
      match pushErrorToRegistry env fuel s e recv
          w.targetCtorName w.methodName now with
      | none => none
      | some r =>
          match r.thrown with
          | some e2 => some { result := .threw e2, reg := r.reg, trace := r.trace }
          | none => some { result := .ret none, reg := r.reg, trace := r.trace }

/-- Registry API calls other than the wrapper, as a uniform operation
type, used to state which operations can touch which part of the
state. -/
inductive RegistryOp where
  | getReg
  | clear
  | register (cb : Nat)
  | unregister (cb : Nat)
  | logReg
deriving DecidableEq

/-- Run a registry API call; the second component is the list of observer
invocations it performs (none of these methods calls `notifyObservers`,
so it is always empty — recorded here so that theorems can say so). -/
def runOp (s : RegistryState) :
    RegistryOp → RegistryState × List (Nat × ErrorRegistryEntry)
  | .getReg => (s, [])
  | .clear => (clearRegistry s, [])
  | .register cb => (registerObserver s cb, [])
  | .unregister cb => (unregisterObserver s cb, [])
  | .logReg => (s, [])

/-- Iterate `n` wrapped calls (same wrapped method, receiver, arguments
and timestamp), threading the registry state. -/
def iterateCalls (env : ObsEnv) (fuel : Nat) {α β : Type}
    (w : WrappedMethod α β) (recv : Nat) (args : α) (now : Nat) :
    Nat → RegistryState → Option RegistryState
  | 0, s => some s
  | n + 1, s =>
      match wrappedCall env fuel w s recv args now with
      | none => none
      | some out => iterateCalls env fuel w recv args now n out.reg

/-! ### Basic lemmas about observer action runs -/

/-- A successful observer action never touches the invocation trace. -/
lemma runObsStep_trace (s : NotifyState) (a : ObsStep) (s' : NotifyState)
    (h : runObsStep s a = .ok s') : s'.trace = s.trace := by
  cases a <;> simp [runObsStep] at h <;> simp [← h]

/-- A successful observer action only ever removes registry entries
(register/unregister keep them, clear empties them). -/
lemma runObsStep_entries_subset (s : NotifyState) (a : ObsStep)
    (s' : NotifyState) (h : runObsStep s a = .ok s') :
    ∀ en ∈ s'.reg.errorRegistryEntries, en ∈ s.reg.errorRegistryEntries := by
  cases a <;>
    simp [runObsStep] at h <;>
    simp [← h, registerObserver, unregisterObserver, clearRegistry]

/-- A non-clearing observer action keeps the entry array unchanged. -/
lemma runObsStep_entries_of_not_clear (s : NotifyState) (a : ObsStep)
    (s' : NotifyState) (hc : a.isClear = false)
    (h : runObsStep s a = .ok s') :
    s'.reg.errorRegistryEntries = s.reg.errorRegistryEntries := by
  cases a <;>
    simp [ObsStep.isClear] at hc <;>
    simp [runObsStep] at h <;>
    simp [← h, registerObserver, unregisterObserver]

/-- A non-throwing observer action succeeds. -/
lemma runObsStep_ok_of_not_throw (s : NotifyState) (a : ObsStep)
    (ht : a.isThrow = false) : ∃ s', runObsStep s a = .ok s' := by
  cases a <;> simp [ObsStep.isThrow] at ht <;> exact ⟨_, rfl⟩

/-- Running an observer body never touches the invocation trace. -/
lemma runObsSteps_trace (l : List ObsStep) :
    ∀ s : NotifyState, (runObsSteps s l).1.trace = s.trace := by
  induction l with
  | nil => intro s; rfl
  | cons a rest ih =>
      intro s
      simp only [runObsSteps]
      cases h : runObsStep s a with
      | error e => rfl
      | ok s' => exact (ih s').trans (runObsStep_trace s a s' h)

/-- Running an observer body can only remove registry entries. -/
lemma runObsSteps_entries_subset (l : List ObsStep) :
    ∀ s : NotifyState, ∀ en ∈ (runObsSteps s l).1.reg.errorRegistryEntries,
      en ∈ s.reg.errorRegistryEntries := by
  induction l with
  | nil => intro s en hen; exact hen
  | cons a rest ih =>
      intro s en hen
      simp only [runObsSteps] at hen
      cases h : runObsStep s a with
      | error e => rw [h] at hen; exact hen
      | ok s' =>
          rw [h] at hen
          exact runObsStep_entries_subset s a s' h en (ih s' en hen)

/-- A clear-free observer body keeps the entry array unchanged, even if
it throws partway through. -/
lemma runObsSteps_entries_of_clearFree (l : List ObsStep)
    (hl : ∀ a ∈ l, ObsStep.isClear a = false) :
    ∀ s : NotifyState,
      (runObsSteps s l).1.reg.errorRegistryEntries =
        s.reg.errorRegistryEntries := by
  induction l with
  | nil => intro s; rfl
  | cons a rest ih =>
      intro s
      simp only [runObsSteps]
      cases h : runObsStep s a with
      | error e => rfl
      | ok s' =>
          have h1 := ih (fun b hb => hl b (List.mem_cons_of_mem a hb)) s'
          have h2 := runObsStep_entries_of_not_clear s a s'
            (hl a (List.mem_cons_self a rest)) h
          exact h1.trans h2

/-- A throw-free observer body completes without throwing. -/
lemma runObsSteps_ok_of_throwFree (l : List ObsStep)
    (hl : ∀ a ∈ l, ObsStep.isThrow a = false) :
    ∀ s : NotifyState, (runObsSteps s l).2 = none := by
  induction l with
  | nil => intro s; rfl
  | cons a rest ih =>
      intro s
      simp only [runObsSteps]
      obtain ⟨s', h⟩ := runObsStep_ok_of_not_throw s a
        (hl a (List.mem_cons_self a rest))
      rw [h]
      exact ih (fun b hb => hl b (List.mem_cons_of_mem a hb)) s'

/-! ### Lemmas about the notification loop -/

/-- Unfolding: at an index past the live length the loop stops. -/
lemma notifyLoop_done (env : ObsEnv) (entry : ErrorRegistryEntry)
    (fuel : Nat) (s : NotifyState) (idx : Nat)
    (h : ¬ idx < s.iterArr.length) :
    notifyLoop env entry (fuel + 1) s idx =
      some { reg := s.reg, trace := s.trace, thrown := none } := by
  simp [notifyLoop, h]

/-- Unfolding: at a live index whose callback completes normally, the
loop records the invocation and moves to the next index. -/
lemma notifyLoop_step (env : ObsEnv) (entry : ErrorRegistryEntry)
    (fuel : Nat) (s s2 : NotifyState) (idx : Nat)
    (h : idx < s.iterArr.length)
    (hrun : runObsSteps { s with trace := s.trace ++ [(s.iterArr[idx], entry)] }
      (env s.iterArr[idx]) = (s2, none)) :
    notifyLoop env entry (fuel + 1) s idx =
      notifyLoop env entry fuel s2 (idx + 1) := by
  simp [notifyLoop, h, hrun]

/-- Unfolding: at a live index whose callback throws, the loop stops and
reports the throw, keeping the registry mutations made so far. -/
lemma notifyLoop_throw (env : ObsEnv) (entry : ErrorRegistryEntry)
    (fuel : Nat) (s s2 : NotifyState) (idx : Nat) (e : JsError)
    (h : idx < s.iterArr.length)
    (hrun : runObsSteps { s with trace := s.trace ++ [(s.iterArr[idx], entry)] }
      (env s.iterArr[idx]) = (s2, some e)) :
    notifyLoop env entry (fuel + 1) s idx =
      some { reg := s2.reg, trace := s2.trace, thrown := some e } := by
  simp [notifyLoop, h, hrun]

/-- Combined safety facts about a completed notification run: every
invocation in the trace is either inherited or carries the triggering
entry; registry entries can only have been removed; with throw-free
observers nothing is thrown; with clear-free observers the entry array
is untouched. -/
lemma notifyLoop_some_spec (env : ObsEnv) (entry : ErrorRegistryEntry) :
    ∀ fuel : Nat, ∀ s : NotifyState, ∀ idx : Nat, ∀ r : NotifyResult,
    notifyLoop env entry fuel s idx = some r →
    (∀ p ∈ r.trace, p ∈ s.trace ∨ p.2 = entry) ∧
    (∀ en ∈ r.reg.errorRegistryEntries, en ∈ s.reg.errorRegistryEntries) ∧
    (ThrowFree env → r.thrown = none) ∧
    (ClearFree env →
      r.reg.errorRegistryEntries = s.reg.errorRegistryEntries) := by
  intro fuel
  induction fuel with
  | zero => intro s idx r h; exact absurd h (by simp [notifyLoop])
  | succ fuel ih =>
      intro s idx r h
      by_cases hlt : idx < s.iterArr.length
      · set s1 : NotifyState :=
          { s with trace := s.trace ++ [(s.iterArr[idx], entry)] } with hs1
        have htr1 : s1.trace = s.trace ++ [(s.iterArr[idx], entry)] := rfl
        cases hrun : runObsSteps s1 (env s.iterArr[idx]) with
        | mk s2 thr =>
            have htr2 : s2.trace = s1.trace := by
              have := runObsSteps_trace (env s.iterArr[idx]) s1
              rw [hrun] at this; exact this
            have hent2 : ∀ en ∈ s2.reg.errorRegistryEntries,
                en ∈ s.reg.errorRegistryEntries := by
              intro en hen
              have := runObsSteps_entries_subset (env s.iterArr[idx]) s1 en
              rw [hrun] at this; exact this hen
            cases thr with
            | some e =>
                rw [notifyLoop_throw env entry fuel s s2 idx e hlt hrun] at h
                obtain rfl : NotifyResult.mk s2.reg s2.trace (some e) = r :=
                  Option.some.inj h
                refine ⟨?_, hent2, ?_, ?_⟩
                · intro p hp
                  rw [htr2, htr1] at hp
                  rcases List.mem_append.1 hp with h1 | h1
                  · exact Or.inl h1
                  · simp at h1; subst h1; exact Or.inr rfl
                · intro hthrow
                  exfalso
                  have := runObsSteps_ok_of_throwFree (env s.iterArr[idx])
                    (hthrow s.iterArr[idx]) s1
                  rw [hrun] at this; exact Option.noConfusion this
                · intro hclear
                  have := runObsSteps_entries_of_clearFree (env s.iterArr[idx])
                    (hclear s.iterArr[idx]) s1
                  rw [hrun] at this; exact this
            | none =>
                rw [notifyLoop_step env entry fuel s s2 idx hlt hrun] at h
                obtain ⟨ht, he, hth, hcl⟩ := ih s2 (idx + 1) r h
                refine ⟨?_, fun en hen => hent2 en (he en hen), hth, ?_⟩
                · intro p hp
                  rcases ht p hp with h1 | h1
                  · rw [htr2, htr1] at h1
                    rcases List.mem_append.1 h1 with h2 | h2
                    · exact Or.inl h2
                    · simp at h2; subst h2; exact Or.inr rfl
                  · exact Or.inr h1
                · intro hclear
                  have h3 : s2.reg.errorRegistryEntries =
                      s.reg.errorRegistryEntries := by
                    have := runObsSteps_entries_of_clearFree (env s.iterArr[idx])
                      (hclear s.iterArr[idx]) s1
                    rw [hrun] at this; exact this
                  exact (hcl hclear).trans h3
      · rw [notifyLoop_done env entry fuel s idx hlt] at h
        obtain rfl : NotifyResult.mk s.reg s.trace none = r :=
          Option.some.inj h
        exact ⟨fun p hp => Or.inl hp, fun en hen => hen,
          fun _ => rfl, fun _ => rfl⟩

set_option maxRecDepth 4000 in
/-- With passive observers (callbacks that leave the registry alone), a
sufficiently fuelled notification run visits exactly the remaining
callbacks of the iterated array, in order, invoking each with the
triggering entry, and changes nothing else. -/
lemma notifyLoop_passive (env : ObsEnv) (hp : Passive env)
    (entry : ErrorRegistryEntry) :
    ∀ fuel : Nat, ∀ s : NotifyState, ∀ idx : Nat,
    s.iterArr.length - idx < fuel →
    notifyLoop env entry fuel s idx =
      some (NotifyResult.mk s.reg
        (s.trace ++ (s.iterArr.drop idx).map fun cb => (cb, entry))
        none) := by
  intro fuel
  induction fuel with
  | zero => intro s idx h; omega
  | succ fuel ih =>
      intro s idx h
      by_cases hlt : idx < s.iterArr.length
      · have hrun : runObsSteps
            { s with trace := s.trace ++ [(s.iterArr[idx], entry)] }
            (env s.iterArr[idx]) =
            ({ s with trace := s.trace ++ [(s.iterArr[idx], entry)] }, none) := by
          rw [hp s.iterArr[idx]]; rfl
        rw [notifyLoop_step env entry fuel s _ idx hlt hrun]
        rw [ih { s with trace := s.trace ++ [(s.iterArr[idx], entry)] }
          (idx + 1) (by change s.iterArr.length - (idx + 1) < fuel; omega)]
        rw [List.drop_eq_getElem_cons hlt]
        simp
        have h2 : idx < (List.map (fun cb => (cb, entry)) s.iterArr).length := by
          simpa using hlt
        conv_rhs => rw [List.drop_eq_getElem_cons h2]
        simp
      · rw [notifyLoop_done env entry fuel s idx hlt]
        rw [List.drop_eq_nil_of_le (le_of_not_lt hlt)]
        simp
/-- If the iterated array, from the current index on, consists of
passive callbacks followed by one whose body throws `e2`, the loop
invokes exactly those callbacks (the passive prefix and the thrower),
then stops with the thrown error; callbacks after the thrower are never
invoked and the registry is left as it was. -/
lemma notifyLoop_prefix_throw (env : ObsEnv) (entry : ErrorRegistryEntry)
    (bad : Nat) (e2 : JsError) (post : List Nat)
    (hbad : env bad = [.throwErr e2]) :
    ∀ pre : List Nat, ∀ fuel : Nat, ∀ s : NotifyState, ∀ idx : Nat,
    (∀ cb ∈ pre, env cb = []) →
    s.iterArr.drop idx = pre ++ bad :: post →
    pre.length < fuel →
    notifyLoop env entry fuel s idx =
      some (NotifyResult.mk s.reg
        (s.trace ++ (pre ++ [bad]).map fun cb => (cb, entry))
        (some e2)) := by
  intro pre
  induction pre with
  | nil =>
      intro fuel s idx hpre hdrop hfuel
      obtain ⟨f, rfl⟩ : ∃ f, fuel = f + 1 := ⟨fuel - 1, by omega⟩
      have hlt : idx < s.iterArr.length := by
        by_contra hge
        rw [List.drop_eq_nil_of_le (le_of_not_lt hge)] at hdrop
        simp at hdrop
      rw [List.drop_eq_getElem_cons hlt] at hdrop
      simp only [List.nil_append, List.cons.injEq] at hdrop
      have hrun : runObsSteps
          { s with trace := s.trace ++ [(s.iterArr[idx], entry)] }
          (env s.iterArr[idx]) =
          ({ s with trace := s.trace ++ [(s.iterArr[idx], entry)] },
            some e2) := by
        rw [hdrop.1, hbad]; rfl
      rw [notifyLoop_throw env entry f s _ idx e2 hlt hrun]
      simp [hdrop.1]
  | cons c pre' ih =>
      intro fuel s idx hpre hdrop hfuel
      obtain ⟨f, rfl⟩ : ∃ f, fuel = f + 1 := ⟨fuel - 1, by omega⟩
      have hlt : idx < s.iterArr.length := by
        by_contra hge
        rw [List.drop_eq_nil_of_le (le_of_not_lt hge)] at hdrop
        simp at hdrop
      rw [List.drop_eq_getElem_cons hlt] at hdrop
      simp only [List.cons_append, List.cons.injEq] at hdrop
      have hrun : runObsSteps
          { s with trace := s.trace ++ [(s.iterArr[idx], entry)] }
          (env s.iterArr[idx]) =
          ({ s with trace := s.trace ++ [(s.iterArr[idx], entry)] }, none) := by
        rw [hdrop.1, hpre c (List.mem_cons_self c pre')]; rfl
      rw [notifyLoop_step env entry f s _ idx hlt hrun]
      rw [ih f { s with trace := s.trace ++ [(s.iterArr[idx], entry)] }
        (idx + 1)
        (fun cb hcb => hpre cb (List.mem_cons_of_mem c hcb))
        hdrop.2 (by simp at hfuel; omega)]
      simp [hdrop.1]

set_option maxRecDepth 4000 in
/-- With passive observers, any notification run that completes (does
not run out of fuel) produces exactly the canonical result: registry
untouched, every remaining callback invoked once in order with the
triggering entry, nothing thrown. -/
lemma notifyLoop_passive_of_some (env : ObsEnv) (hp : Passive env)
    (entry : ErrorRegistryEntry) :
    ∀ fuel : Nat, ∀ s : NotifyState, ∀ idx : Nat, ∀ r : NotifyResult,
    notifyLoop env entry fuel s idx = some r →
    r = NotifyResult.mk s.reg
      (s.trace ++ (s.iterArr.drop idx).map fun cb => (cb, entry))
      none := by
  intro fuel
  induction fuel with
  | zero => intro s idx r h; exact absurd h (by simp [notifyLoop])
  | succ fuel ih =>
      intro s idx r h
      by_cases hlt : idx < s.iterArr.length
      · have hrun : runObsSteps
            { s with trace := s.trace ++ [(s.iterArr[idx], entry)] }
            (env s.iterArr[idx]) =
            ({ s with trace := s.trace ++ [(s.iterArr[idx], entry)] }, none) := by
          rw [hp s.iterArr[idx]]; rfl
        rw [notifyLoop_step env entry fuel s _ idx hlt hrun] at h
        rw [ih { s with trace := s.trace ++ [(s.iterArr[idx], entry)] }
          (idx + 1) r h]
        rw [List.drop_eq_getElem_cons hlt]
        simp
        have h2 : idx < (List.map (fun cb => (cb, entry)) s.iterArr).length := by
          simpa using hlt
        conv_rhs => rw [List.drop_eq_getElem_cons h2]
        simp
      · rw [notifyLoop_done env entry fuel s idx hlt] at h
        obtain rfl : NotifyResult.mk s.reg s.trace none = r :=
          Option.some.inj h
        rw [List.drop_eq_nil_of_le (le_of_not_lt hlt)]
        simp

/-- `pushErrorToRegistry` with passive observers and enough fuel: the
entry is appended, every registered callback is invoked once with it in
registration order, the observer array is unchanged, and nothing is
thrown. -/
lemma pushErrorToRegistry_passive (env : ObsEnv) (fuel : Nat)
    (s : RegistryState) (error : JsError) (context : Nat)
    (constructor_name method_name : String) (timestamp : Nat)
    (hp : Passive env) (hfuel : s.errorRegistryObservers.length < fuel) :
    pushErrorToRegistry env fuel s error context constructor_name
        method_name timestamp =
      some (NotifyResult.mk
        (RegistryState.mk
          (s.errorRegistryEntries ++
            [mkEntry error context constructor_name method_name timestamp])
          s.errorRegistryObservers)
        (s.errorRegistryObservers.map fun cb =>
          (cb, mkEntry error context constructor_name method_name timestamp))
        none) := by
  unfold pushErrorToRegistry
  rw [notifyLoop_passive env hp _ fuel _ 0
    (by change s.errorRegistryObservers.length - 0 < fuel; omega)]
  simp

/-- A wrapped call whose body throws, with passive observers and enough
fuel: the error is swallowed (`undefined` is returned), the entry is
appended, every registered callback sees it once in order. -/
lemma wrappedCall_passive_thrown {α β : Type} (env : ObsEnv) (fuel : Nat)
    (w : WrappedMethod α β) (s : RegistryState) (recv : Nat) (args : α)
    (now : Nat) (e : JsError)
    (hp : Passive env) (hbody : w.body recv args = .thrown e)
    (hfuel : s.errorRegistryObservers.length < fuel) :
    wrappedCall env fuel w s recv args now =
      some (CallOutput.mk (CallResult.ret none)
        (RegistryState.mk
          (s.errorRegistryEntries ++
            [mkEntry e recv w.targetCtorName w.methodName now])
          s.errorRegistryObservers)
        (s.errorRegistryObservers.map fun cb =>
          (cb, mkEntry e recv w.targetCtorName w.methodName now))) := by
  have hpp := pushErrorToRegistry_passive env fuel s e recv
    w.targetCtorName w.methodName now hp hfuel
  simp [wrappedCall, hbody, hpp]

/-- Iterating `N` throwing wrapped calls with passive observers grows
the entry array by exactly `N` and leaves the observer array unchanged. -/
lemma iterateCalls_passive_thrown {α β : Type} (env : ObsEnv) (fuel : Nat)
    (w : WrappedMethod α β) (recv : Nat) (args : α) (now : Nat)
    (e : JsError) (hp : Passive env)
    (hbody : w.body recv args = .thrown e) :
    ∀ (N : Nat) (s r : RegistryState),
      s.errorRegistryObservers.length < fuel →
      iterateCalls env fuel w recv args now N s = some r →
      r.errorRegistryEntries.length =
        s.errorRegistryEntries.length + N ∧
      r.errorRegistryObservers = s.errorRegistryObservers := by
  intro N
  induction N with
  | zero =>
      intro s r _ h
      obtain rfl : s = r := Option.some.inj h
      exact ⟨rfl, rfl⟩
  | succ n ih =>
      intro s r hfuel h
      simp only [iterateCalls] at h
      rw [wrappedCall_passive_thrown env fuel w s recv args now e hp hbody
        hfuel] at h
      obtain ⟨h1, h2⟩ := ih
        (RegistryState.mk
          (s.errorRegistryEntries ++
            [mkEntry e recv w.targetCtorName w.methodName now])
          s.errorRegistryObservers) r hfuel h
      constructor
      · rw [h1]; simp; omega
      · exact h2

/-! ### Concrete data used to instantiate the theorems -/

/-- The environment in which every callback does nothing. -/
def envNil : ObsEnv := fun _ => []

lemma envNil_passive : Passive envNil := fun _ => rfl

lemma envNil_throwFree : ThrowFree envNil := by
  intro cb a ha
  exact absurd ha (List.not_mem_nil a)

lemma envNil_clearFree : ClearFree envNil := by
  intro cb a ha
  exact absurd ha (List.not_mem_nil a)

/-- `Error("boom")`, as in the spec's scenario. -/
def boomErr : JsError := { name := "Error", message := "boom" }

/-- The wrapped always-throwing method of the spec's scenario: method
`riskyOperation` on class `T`, throwing `Error("boom")`. -/
def riskyW : WrappedMethod Nat Nat :=
  { targetCtorName := "T"
    methodName := "riskyOperation"
    body := fun _ _ => .thrown boomErr }

/-- A wrapped method that never throws: it returns its argument plus
one. -/
def addOneW : WrappedMethod Nat Nat :=
  { targetCtorName := "T"
    methodName := "addOne"
    body := fun _ n => .ret (n + 1) }

/-- A registry with no entries and a single registered callback `7`. -/
def regOne : RegistryState :=
  { errorRegistryEntries := [], errorRegistryObservers := [7] }

/-- The entry the scenario records. -/
def entryBoom : ErrorRegistryEntry := mkEntry boomErr 0 "T" "riskyOperation" 0

/-- The outcome of the scenario call. -/
def outBoom : CallOutput Nat :=
  { result := CallResult.ret none
    reg := { errorRegistryEntries := [entryBoom], errorRegistryObservers := [7] }
    trace := [(7, entryBoom)] }

/-! ### The claims -/

/-- C1: for every method wrapped by `catchError`, every invocation whose
original body throws returns `undefined` to its caller — the original
error does not propagate (assuming no observer itself throws, the case
covered by C8); the catch path appends exactly one entry whose `error`
field is the thrown value, then notifies the observers (every observer
invocation of the call carries that very entry), and yields `undefined`
(observers are also assumed not to clear the registry during
notification, so that the appended entry can be read off the final
state). -/
theorem wrappedCall_throw_swallowed {α β : Type} (env : ObsEnv) (fuel : Nat)
    (w : WrappedMethod α β) (s : RegistryState) (recv : Nat) (args : α)
    (now : Nat) (e : JsError) (out : CallOutput β)
    (hbody : w.body recv args = .thrown e)
    (hthrow : ThrowFree env) (hclear : ClearFree env)
    (hout : wrappedCall env fuel w s recv args now = some out) :
    out.result = CallResult.ret none ∧
    out.reg.errorRegistryEntries =
      s.errorRegistryEntries ++
        [mkEntry e recv w.targetCtorName w.methodName now] ∧
    ∀ p ∈ out.trace,
      p.2 = mkEntry e recv w.targetCtorName w.methodName now := by
  simp only [wrappedCall, hbody, pushErrorToRegistry] at hout
  cases hnl : notifyLoop env (mkEntry e recv w.targetCtorName w.methodName now)
      fuel
      (NotifyState.mk
        (RegistryState.mk
          (s.errorRegistryEntries ++
            [mkEntry e recv w.targetCtorName w.methodName now])
          s.errorRegistryObservers)
        s.errorRegistryObservers true []) 0 with
  | none => rw [hnl] at hout; exact absurd hout (by simp)
  | some r =>
      rw [hnl] at hout
      obtain ⟨htr, hen, hth, hcl⟩ :=
        notifyLoop_some_spec env _ fuel _ 0 r hnl
      obtain ⟨rreg, rtrace, rthrown⟩ := r
      have h0 : rthrown = none := hth hthrow
      subst h0
      obtain rfl : CallOutput.mk (CallResult.ret none) rreg rtrace = out :=
        Option.some.inj hout
      refine ⟨rfl, ?_, ?_⟩
      · exact hcl hclear
      · intro p hp
        rcases htr p hp with h1 | h1
        · exact absurd h1 (List.not_mem_nil p)
        · exact h1

/-- Witness for C1, at the spec's scenario: one observer (`7`), wrapped
method `riskyOperation` of class `T` throwing `Error("boom")`. -/
theorem wrappedCall_throw_swallowed_witness :
    outBoom.result = CallResult.ret none ∧
    outBoom.reg.errorRegistryEntries =
      regOne.errorRegistryEntries ++
        [mkEntry boomErr 0 riskyW.targetCtorName riskyW.methodName 0] :=
  ⟨(wrappedCall_throw_swallowed envNil 2 riskyW regOne 0 0 0 boomErr outBoom
      rfl envNil_throwFree envNil_clearFree rfl).1,
   (wrappedCall_throw_swallowed envNil 2 riskyW regOne 0 0 0 boomErr outBoom
      rfl envNil_throwFree envNil_clearFree rfl).2.1⟩

/-- C2: for every method wrapped by `catchError`, every invocation whose
original body returns normally passes the returned value through
unchanged to the caller, leaves the registry state (entry array and
observer array) exactly as it was, and invokes no observer. -/
theorem wrappedCall_normal_passthrough {α β : Type} (env : ObsEnv)
    (fuel : Nat) (w : WrappedMethod α β) (s : RegistryState) (recv : Nat)
    (args : α) (now : Nat) (v : β)
    (hbody : w.body recv args = .ret v) :
    wrappedCall env fuel w s recv args now =
      some (CallOutput.mk (CallResult.ret (some v)) s []) := by
  simp [wrappedCall, hbody]

/-- Witness for C2: `addOne` called with `41` returns `42`, with the
registry untouched and no observer invoked. -/
theorem wrappedCall_normal_passthrough_witness :
    wrappedCall envNil 2 addOneW regOne 0 41 0 =
      some (CallOutput.mk (CallResult.ret (some 42)) regOne []) :=
  wrappedCall_normal_passthrough envNil 2 addOneW regOne 0 41 0 42 rfl

/-- C3: for every entry recorded by a throwing invocation of a wrapped
method — whatever the arguments — `constructor_name` is the name of the
class the decorator was applied to (`target.constructor.name`, fixed at
wrap time in the embedding) and `method_name` is the wrapped method's
name: this holds for the entry every observer is invoked with, and every
entry of the final registry state is either a pre-existing one or
carries exactly these two names. -/
theorem wrappedCall_entry_names {α β : Type} (env : ObsEnv) (fuel : Nat)
    (w : WrappedMethod α β) (s : RegistryState) (recv : Nat) (args : α)
    (now : Nat) (e : JsError) (out : CallOutput β)
    (hbody : w.body recv args = .thrown e)
    (hout : wrappedCall env fuel w s recv args now = some out) :
    (∀ p ∈ out.trace,
      p.2.constructor_name = w.targetCtorName ∧
      p.2.method_name = w.methodName) ∧
    (∀ en ∈ out.reg.errorRegistryEntries,
      en ∈ s.errorRegistryEntries ∨
        (en.constructor_name = w.targetCtorName ∧
         en.method_name = w.methodName)) := by
  simp only [wrappedCall, hbody, pushErrorToRegistry] at hout
  cases hnl : notifyLoop env (mkEntry e recv w.targetCtorName w.methodName now)
      fuel
      (NotifyState.mk
        (RegistryState.mk
          (s.errorRegistryEntries ++
            [mkEntry e recv w.targetCtorName w.methodName now])
          s.errorRegistryObservers)
        s.errorRegistryObservers true []) 0 with
  | none => rw [hnl] at hout; exact absurd hout (by simp)
  | some r =>
      rw [hnl] at hout
      obtain ⟨htr, hen, _, _⟩ := notifyLoop_some_spec env _ fuel _ 0 r hnl
      obtain ⟨rreg, rtrace, rthrown⟩ := r
      have houtr : out.trace = rtrace ∧ out.reg = rreg := by
        cases rthrown with
        | some e2 =>
            obtain rfl : CallOutput.mk (CallResult.threw e2) rreg rtrace
                = out := Option.some.inj hout
            exact ⟨rfl, rfl⟩
        | none =>
            obtain rfl : CallOutput.mk (CallResult.ret none) rreg rtrace
                = out := Option.some.inj hout
            exact ⟨rfl, rfl⟩
      constructor
      · intro p hp
        rw [houtr.1] at hp
        rcases htr p hp with h1 | h1
        · exact absurd h1 (List.not_mem_nil p)
        · rw [h1]; exact ⟨rfl, rfl⟩
      · intro en hmem
        rw [houtr.2] at hmem
        have h2 := hen en hmem
        rcases List.mem_append.1 h2 with h3 | h3
        · exact Or.inl h3
        · right
          rw [List.mem_singleton.1 h3]
          exact ⟨rfl, rfl⟩

/-- Witness for C3: in the scenario the recorded entry carries
`constructor_name = "T"` and `method_name = "riskyOperation"`. -/
theorem wrappedCall_entry_names_witness :
    entryBoom.constructor_name = riskyW.targetCtorName ∧
    entryBoom.method_name = riskyW.methodName :=
  (wrappedCall_entry_names envNil 2 riskyW regOne 0 0 0 boomErr outBoom
      rfl rfl).1 (7, entryBoom) (by simp [outBoom])

/-- C4: when an entry is recorded, each observer registration present at
notification time is invoked exactly once with that exact entry, and the
invocations happen in registration order — the invocation trace is
literally the observer array mapped to `(callback, entry)`, so a
callback registered multiple times is invoked once per registration.
(Stated for observers that do not mutate the registry while being
notified; the mutating cases are covered by C8–C10.) -/
theorem notify_in_registration_order (env : ObsEnv) (fuel : Nat)
    (s : RegistryState) (error : JsError) (context : Nat)
    (constructor_name method_name : String) (timestamp : Nat)
    (hp : Passive env)
    (hfuel : s.errorRegistryObservers.length < fuel) :
    pushErrorToRegistry env fuel s error context constructor_name
        method_name timestamp =
      some (NotifyResult.mk
        (RegistryState.mk
          (s.errorRegistryEntries ++
            [mkEntry error context constructor_name method_name timestamp])
          s.errorRegistryObservers)
        (s.errorRegistryObservers.map fun cb =>
          (cb, mkEntry error context constructor_name method_name timestamp))
        none) :=
  pushErrorToRegistry_passive env fuel s error context constructor_name
    method_name timestamp hp hfuel

/-- Witness for C4, with callback `7` registered twice and `8` once:
the trace invokes `7`, then `8`, then `7` again, each time with the
recorded entry. -/
theorem notify_in_registration_order_witness :
    pushErrorToRegistry envNil 4
        (RegistryState.mk [] [7, 8, 7]) boomErr 0 "T" "riskyOperation" 0 =
      some (NotifyResult.mk
        (RegistryState.mk [entryBoom] [7, 8, 7])
        [(7, entryBoom), (8, entryBoom), (7, entryBoom)]
        none) :=
  notify_in_registration_order envNil 4 (RegistryState.mk [] [7, 8, 7])
    boomErr 0 "T" "riskyOperation" 0 envNil_passive (by decide)

/-- C5: the entry array grows only through the wrapper's catch path, by
exactly one entry per throwing call — after `N` throwing calls (and no
intervening clear) its length has grown by `N` — and shrinks only via
the full clear; `getRegistry`, `logRegistry`, `registerObserver` and
`unregisterObserver` never change it, none of the API calls invokes an
observer, and the observer array is changed by no API call other than
`registerObserver`/`unregisterObserver`. -/
theorem registry_mutation_discipline :
    (∀ s : RegistryState, runOp s RegistryOp.getReg = (s, []) ∧
      getRegistry s = s.errorRegistryEntries) ∧
    (∀ s : RegistryState, runOp s RegistryOp.logReg = (s, [])) ∧
    (∀ (s : RegistryState) (cb : Nat),
      (runOp s (RegistryOp.register cb)).1.errorRegistryEntries =
        s.errorRegistryEntries ∧
      (runOp s (RegistryOp.register cb)).2 = []) ∧
    (∀ (s : RegistryState) (cb : Nat),
      (runOp s (RegistryOp.unregister cb)).1.errorRegistryEntries =
        s.errorRegistryEntries ∧
      (runOp s (RegistryOp.unregister cb)).2 = []) ∧
    (∀ s : RegistryState,
      (runOp s RegistryOp.clear).1.errorRegistryEntries = [] ∧
      (runOp s RegistryOp.clear).1.errorRegistryObservers =
        s.errorRegistryObservers ∧
      (runOp s RegistryOp.clear).2 = []) ∧
    (∀ (env : ObsEnv) (fuel : Nat) (α β : Type) (w : WrappedMethod α β)
      (recv : Nat) (args : α) (now : Nat) (e : JsError) (N : Nat)
      (s r : RegistryState),
      Passive env → w.body recv args = .thrown e →
      s.errorRegistryObservers.length < fuel →
      iterateCalls env fuel w recv args now N s = some r →
      r.errorRegistryEntries.length =
        s.errorRegistryEntries.length + N) := by
  refine ⟨?_, ?_, ?_, ?_, ?_, ?_⟩
  · intro s; exact ⟨rfl, rfl⟩
  · intro s; rfl
  · intro s cb; exact ⟨rfl, rfl⟩
  · intro s cb; exact ⟨rfl, rfl⟩
  · intro s; exact ⟨rfl, rfl, rfl⟩
  · intro env fuel α β w recv args now e N s r hp hbody hfuel hit
    exact (iterateCalls_passive_thrown env fuel w recv args now e hp hbody
      N s r hfuel hit).1

/-- Witness for C5: two throwing calls of `riskyOperation` on a registry
with one observer leave an entry array of length two. -/
theorem registry_mutation_discipline_witness :
    (RegistryState.mk [entryBoom, entryBoom] [7]).errorRegistryEntries.length
      = regOne.errorRegistryEntries.length + 2 :=
  registry_mutation_discipline.2.2.2.2.2 envNil 2 Nat Nat riskyW 0 0 0
    boomErr 2 regOne (RegistryState.mk [entryBoom, entryBoom] [7])
    envNil_passive rfl (by decide) rfl

/-- C6: `clearRegistry` leaves the entry array empty whatever its prior
content, the observer array is untouched, and no observer is invoked by
the clear. -/
theorem clearRegistry_leaves_empty (s : RegistryState) :
    (runOp s RegistryOp.clear).1.errorRegistryEntries = [] ∧
    (runOp s RegistryOp.clear).1.errorRegistryObservers =
      s.errorRegistryObservers ∧
    (runOp s RegistryOp.clear).2 = [] :=
  ⟨rfl, rfl, rfl⟩

/-- Witness for C6 at a registry holding two entries and one observer. -/
theorem clearRegistry_leaves_empty_witness :
    (runOp (RegistryState.mk [entryBoom, entryBoom] [7])
        RegistryOp.clear).1.errorRegistryEntries = [] ∧
    (runOp (RegistryState.mk [entryBoom, entryBoom] [7])
        RegistryOp.clear).1.errorRegistryObservers = [7] :=
  ⟨(clearRegistry_leaves_empty (RegistryState.mk [entryBoom, entryBoom] [7])).1,
   (clearRegistry_leaves_empty (RegistryState.mk [entryBoom, entryBoom] [7])).2.1⟩

/-- C7: `unregisterObserver cb` removes every occurrence of `cb` from the
observer array (so `cb` is absent afterwards, however many times it was
registered), it is a no-op when `cb` was never registered, and no entry
recorded afterwards notifies `cb`: the trace of any later
`pushErrorToRegistry` run contains no invocation of `cb`. -/
theorem unregister_removes_callback (s : RegistryState) (cb : Nat) :
    cb ∉ (unregisterObserver s cb).errorRegistryObservers ∧
    (cb ∉ s.errorRegistryObservers → unregisterObserver s cb = s) ∧
    (∀ (env : ObsEnv) (fuel : Nat) (error : JsError) (context : Nat)
      (constructor_name method_name : String) (timestamp : Nat)
      (r : NotifyResult),
      Passive env →
      pushErrorToRegistry env fuel (unregisterObserver s cb) error context
        constructor_name method_name timestamp = some r →
      ∀ p ∈ r.trace, p.1 ≠ cb) := by
  have hnot : cb ∉ (unregisterObserver s cb).errorRegistryObservers := by
    intro hmem
    simp [unregisterObserver, List.mem_filter] at hmem
  refine ⟨hnot, ?_, ?_⟩
  · intro hno
    obtain ⟨es, obs⟩ := s
    simp only [unregisterObserver, RegistryState.mk.injEq, true_and]
    apply List.filter_eq_self.2
    intro a ha
    simp only [ne_eq, decide_eq_true_eq]
    intro h
    exact hno (h ▸ ha)
  · intro env fuel error context constructor_name method_name timestamp r
      hp hpush p hp2
    unfold pushErrorToRegistry at hpush
    have hr := notifyLoop_passive_of_some env hp _ fuel _ 0 r hpush
    rw [hr] at hp2
    simp only [List.nil_append, List.drop_zero, List.mem_map] at hp2
    obtain ⟨cb2, hcb2, rfl⟩ := hp2
    intro hEq
    exact hnot (hEq ▸ hcb2)

/-- Witness for C7: unregistering `11` from `[11, 9, 11]` removes both
occurrences, and unregistering it from `[9]` (never registered) is a
no-op. -/
theorem unregister_removes_callback_witness :
    (11 : Nat) ∉
      (unregisterObserver (RegistryState.mk [] [11, 9, 11])
        11).errorRegistryObservers ∧
    unregisterObserver (RegistryState.mk [] [9]) 11 =
      RegistryState.mk [] [9] :=
  ⟨(unregister_removes_callback (RegistryState.mk [] [11, 9, 11]) 11).1,
   (unregister_removes_callback (RegistryState.mk [] [9]) 11).2.1
     (by decide)⟩

/-- C8: if an observer throws while being notified (here: the observers
before it in registration order are passive, and it throws `e2`), the
throw propagates out of the wrapped call to its caller as `e2` — not
swallowed by the registry; the observers after it are never invoked
(the trace stops at the thrower); and the entry stays appended to the
registry. -/
theorem observer_throw_propagates {α β : Type} (env : ObsEnv) (fuel : Nat)
    (w : WrappedMethod α β) (s : RegistryState) (recv : Nat) (args : α)
    (now : Nat) (e e2 : JsError) (pre post : List Nat) (bad : Nat)
    (hbody : w.body recv args = .thrown e)
    (hobs : s.errorRegistryObservers = pre ++ bad :: post)
    (hpre : ∀ cb ∈ pre, env cb = [])
    (hbad : env bad = [ObsStep.throwErr e2])
    (hfuel : pre.length < fuel) :
    wrappedCall env fuel w s recv args now =
      some (CallOutput.mk (CallResult.threw e2)
        (RegistryState.mk
          (s.errorRegistryEntries ++
            [mkEntry e recv w.targetCtorName w.methodName now])
          s.errorRegistryObservers)
        ((pre ++ [bad]).map fun cb =>
          (cb, mkEntry e recv w.targetCtorName w.methodName now))) := by
  have hnl := notifyLoop_prefix_throw env
    (mkEntry e recv w.targetCtorName w.methodName now) bad e2 post hbad pre
    fuel
    (NotifyState.mk
      (RegistryState.mk
        (s.errorRegistryEntries ++
          [mkEntry e recv w.targetCtorName w.methodName now])
        s.errorRegistryObservers)
      s.errorRegistryObservers true []) 0 hpre (by simpa using hobs) hfuel
  simp only [wrappedCall, hbody, pushErrorToRegistry]
  rw [hnl]
  rfl

/-- The error thrown by the misbehaving observer in the C8 witness. -/
def obsErr : JsError := { name := "Error", message := "observer failed" }

/-- An environment where callback `13` throws and all others are
passive. -/
def envThrower : ObsEnv :=
  fun cb => if cb = 13 then [ObsStep.throwErr obsErr] else []

/-- Witness for C8: observers `[7, 13, 9]` where `13` throws: the
wrapped call throws the observer's error, `7` and `13` were invoked,
`9` was not, and the entry is in the registry. -/
theorem observer_throw_propagates_witness :
    wrappedCall envThrower 2 riskyW (RegistryState.mk [] [7, 13, 9])
        0 0 0 =
      some (CallOutput.mk (CallResult.threw obsErr)
        (RegistryState.mk [entryBoom] [7, 13, 9])
        [(7, entryBoom), (13, entryBoom)]) :=
  observer_throw_propagates envThrower 2 riskyW
    (RegistryState.mk [] [7, 13, 9]) 0 0 0 boomErr obsErr [7] [9] 13
    rfl rfl
    (by intro cb hcb
        have : cb = 7 := by simpa using hcb
        subst this; rfl)
    rfl (by decide)

/-- C9: if, during notification, a running observer registers a new
observer, the new observer is invoked for the same triggering entry:
`registerObserver` pushes onto the very array the `for...of` loop is
iterating, so the append is visited.  Afterwards both observers are
registered. -/
theorem register_during_notify_visited (env : ObsEnv) (a b : Nat)
    (es : List ErrorRegistryEntry) (error : JsError) (context : Nat)
    (constructor_name method_name : String) (timestamp : Nat)
    (ha : env a = [ObsStep.registerObs b]) (hb : env b = []) :
    pushErrorToRegistry env 3 (RegistryState.mk es [a]) error context
        constructor_name method_name timestamp =
      some (NotifyResult.mk
        (RegistryState.mk
          (es ++
            [mkEntry error context constructor_name method_name timestamp])
          [a, b])
        [(a, mkEntry error context constructor_name method_name timestamp),
         (b, mkEntry error context constructor_name method_name timestamp)]
        none) := by
  set E := mkEntry error context constructor_name method_name timestamp
    with hE
  show notifyLoop env E 3
      (NotifyState.mk (RegistryState.mk (es ++ [E]) [a]) [a] true []) 0 =
    some (NotifyResult.mk (RegistryState.mk (es ++ [E]) [a, b])
      [(a, E), (b, E)] none)
  rw [show (3 : Nat) = 2 + 1 from rfl]
  rw [notifyLoop_step env E 2
    (NotifyState.mk (RegistryState.mk (es ++ [E]) [a]) [a] true [])
    (NotifyState.mk (RegistryState.mk (es ++ [E]) [a, b]) [a, b] true
      [(a, E)])
    0 (by simp)
    (by show runObsSteps
          (NotifyState.mk (RegistryState.mk (es ++ [E]) [a]) [a] true
            [(a, E)]) (env a) = _
        rw [ha]; rfl)]
  rw [show (2 : Nat) = 1 + 1 from rfl]
  rw [notifyLoop_step env E 1
    (NotifyState.mk (RegistryState.mk (es ++ [E]) [a, b]) [a, b] true
      [(a, E)])
    (NotifyState.mk (RegistryState.mk (es ++ [E]) [a, b]) [a, b] true
      [(a, E), (b, E)])
    1 (by simp)
    (by show runObsSteps
          (NotifyState.mk (RegistryState.mk (es ++ [E]) [a, b]) [a, b] true
            [(a, E), (b, E)]) (env b) = _
        rw [hb]; rfl)]
  rw [show (1 : Nat) = 0 + 1 from rfl]
  rw [notifyLoop_done env E 0
    (NotifyState.mk (RegistryState.mk (es ++ [E]) [a, b]) [a, b] true
      [(a, E), (b, E)])
    2 (by simp)]

/-- The concrete environment for the C9 witness: callback `5` registers
callback `6`; everyone else is passive. -/
def envRegMid : ObsEnv :=
  fun cb => if cb = 5 then [ObsStep.registerObs 6] else []

/-- Witness for C9: observer `5` registers `6` while being notified;
`6` is invoked with the same entry and both end up registered. -/
theorem register_during_notify_visited_witness :
    pushErrorToRegistry envRegMid 3 (RegistryState.mk [] [5])
        boomErr 0 "T" "riskyOperation" 0 =
      some (NotifyResult.mk
        (RegistryState.mk [entryBoom] [5, 6])
        [(5, entryBoom), (6, entryBoom)] none) :=
  register_during_notify_visited envRegMid 5 6 [] boomErr 0 "T"
    "riskyOperation" 0 rfl rfl

/-- C10: if, during notification, a running observer unregisters an
observer not yet notified, that observer is nonetheless still invoked
for the same triggering entry — `unregisterObserver` installs a new
filtered array while the `for...of` loop keeps iterating the old one —
and the removal is visible only afterwards: the final observer array no
longer contains it. -/
theorem unregister_during_notify_still_invoked (env : ObsEnv) (a b : Nat)
    (es : List ErrorRegistryEntry) (error : JsError) (context : Nat)
    (constructor_name method_name : String) (timestamp : Nat)
    (ha : env a = [ObsStep.unregisterObs b]) (hb : env b = []) :
    pushErrorToRegistry env 3 (RegistryState.mk es [a, b]) error context
        constructor_name method_name timestamp =
      some (NotifyResult.mk
        (RegistryState.mk
          (es ++
            [mkEntry error context constructor_name method_name timestamp])
          [a])
        [(a, mkEntry error context constructor_name method_name timestamp),
         (b, mkEntry error context constructor_name method_name timestamp)]
        none) := by
  have hab : a ≠ b := by
    intro h
    subst h
    rw [hb] at ha
    exact List.noConfusion ha
  set E := mkEntry error context constructor_name method_name timestamp
    with hE
  show notifyLoop env E 3
      (NotifyState.mk (RegistryState.mk (es ++ [E]) [a, b]) [a, b] true [])
      0 =
    some (NotifyResult.mk (RegistryState.mk (es ++ [E]) [a])
      [(a, E), (b, E)] none)
  rw [show (3 : Nat) = 2 + 1 from rfl]
  rw [notifyLoop_step env E 2
    (NotifyState.mk (RegistryState.mk (es ++ [E]) [a, b]) [a, b] true [])
    (NotifyState.mk (RegistryState.mk (es ++ [E]) [a]) [a, b] false
      [(a, E)])
    0 (by simp)
    (by show runObsSteps
          (NotifyState.mk (RegistryState.mk (es ++ [E]) [a, b]) [a, b] true
            [(a, E)]) (env a) = _
        rw [ha]
        simp [runObsSteps, runObsStep, unregisterObserver, hab])]
  rw [show (2 : Nat) = 1 + 1 from rfl]
  rw [notifyLoop_step env E 1
    (NotifyState.mk (RegistryState.mk (es ++ [E]) [a]) [a, b] false
      [(a, E)])
    (NotifyState.mk (RegistryState.mk (es ++ [E]) [a]) [a, b] false
      [(a, E), (b, E)])
    1 (by simp)
    (by show runObsSteps
          (NotifyState.mk (RegistryState.mk (es ++ [E]) [a]) [a, b] false
            [(a, E), (b, E)]) (env b) = _
        rw [hb]; rfl)]
  rw [show (1 : Nat) = 0 + 1 from rfl]
  rw [notifyLoop_done env E 0
    (NotifyState.mk (RegistryState.mk (es ++ [E]) [a]) [a, b] false
      [(a, E), (b, E)])
    2 (by simp)]

/-- The concrete environment for the C10 witness: callback `5`
unregisters callback `6`; everyone else is passive. -/
def envUnregMid : ObsEnv :=
  fun cb => if cb = 5 then [ObsStep.unregisterObs 6] else []

/-- Witness for C10: observer `5` unregisters `6` while `6` is still
pending; `6` is nonetheless invoked with the same entry, and only the
final observer array drops it. -/
theorem unregister_during_notify_still_invoked_witness :
    pushErrorToRegistry envUnregMid 3 (RegistryState.mk [] [5, 6])
        boomErr 0 "T" "riskyOperation" 0 =
      some (NotifyResult.mk
        (RegistryState.mk [entryBoom] [5])
        [(5, entryBoom), (6, entryBoom)] none) :=
  unregister_during_notify_still_invoked envUnregMid 5 6 [] boomErr 0 "T"
    "riskyOperation" 0 rfl rfl

end XErrorHandler
